import Mathlib

/-!
# Shallow embedding of `pip-services3-redis-nodex` (RedisCache / RedisLock)

This file embeds `src/cache/RedisCache.ts` (and, where the lock component's
source is concerned, the spec's description of `RedisLock`) into Lean and
proves the specified properties.

Modelling conventions:
* The external Redis server is modelled as an explicit state
  (`RedisState`): an association list from keys to stored blobs with
  absolute expiry instants, plus a trace of the commands the client has
  issued (so "issues no network call" is expressible).
* Time is an explicit `Int` parameter (milliseconds); `SET ... PX t`
  stores an entry expiring at `now + t`, and a key is live at `now`
  iff `now < expiresAt` (Redis store-native expiry).
* The platform serializer `JSON.stringify` / `JSON.parse` is an external
  collaborator; the spec scopes the byte format out ("values are
  serialized to/from a byte-encoded representation").  The encoded form
  is therefore modelled opaquely by the value it encodes
  (`EncodedValue`), together with the one fact the source relies on:
  the encoding of any serializable value is a nonempty — hence
  JS-truthy — string, and decoding inverts encoding.
* JavaScript values flowing through the component are modelled by the
  inductive `JsValue` (the JSON-serializable values); `null` replies and
  integer replies of the store are modelled at their actual types.
-/

/-- The JSON-serializable JavaScript values (numbers as integers: the
component never manipulates numerics, so float formatting is irrelevant
to its logic). -/
inductive JsValue where
  | null
  | bool (b : Bool)
  | num (n : Int)
  | str (s : String)
  | arr (elems : List JsValue)
  | obj (fields : List (String × JsValue))

/-- The byte-encoded serialized representation of a value.  The source
delegates serialization to the platform pair `JSON.stringify` /
`JSON.parse`, an external collaborator whose format the spec scopes out;
the representation is modelled opaquely by the value it encodes.  What the
component relies on is that encoding is injective, decoding inverts it,
and the encoded string of a serializable value is nonempty (JS-truthy). -/
structure EncodedValue where
  encodes : JsValue

/-- `JSON.stringify` at the modelled boundary. -/
def jsonStringify (v : JsValue) : EncodedValue := ⟨v⟩

/-- `JSON.parse` applied to an encoded value at the modelled boundary. -/
def jsonParse (e : EncodedValue) : JsValue := e.encodes

/-- One live-or-expired entry of the external store: key, stored blob and
absolute expiry instant (ms). -/
structure RedisEntry where
  key : String
  blob : EncodedValue
  expiresAt : Int

/-- A command issued by the client over the network, recorded so that
"issues no network call" is a statement about the state. -/
inductive RedisCommand where
  | get (key : String)
  | set (key : String) (blob : EncodedValue) (px : Int)
  | del (key : String)
  | setnx (key : String) (blob : EncodedValue) (px : Int)

/-- The external Redis server state: entries plus the trace of commands
received from this client. -/
structure RedisState where
  entries : List RedisEntry
  log : List RedisCommand

/-- The blob stored under `k`, if `k` is live at instant `now`
(store-native `PX` expiry: live while `now < expiresAt`). -/
def RedisState.getLive (s : RedisState) (now : Int) (k : String) : Option EncodedValue :=
  match s.entries.find? (fun e => e.key == k) with
  | some e => if now < e.expiresAt then some e.blob else none
  | none => none

/-- `GET k`: reply and post-state (the command is logged). -/
def RedisState.getCmd (s : RedisState) (now : Int) (k : String) :
    Option EncodedValue × RedisState :=
  (s.getLive now k, ⟨s.entries, s.log ++ [.get k]⟩)

/-- `SET k b PX px`: replaces any entry under `k` by one expiring at
`now + px`; replies the simple string "OK". -/
def RedisState.setCmd (s : RedisState) (now : Int) (k : String) (b : EncodedValue)
    (px : Int) : String × RedisState :=
  ("OK", ⟨⟨k, b, now + px⟩ :: s.entries.filter (fun e => ¬ (e.key == k)),
          s.log ++ [.set k b px]⟩)

/-- `DEL k`: removes the key; replies the number of existing (live) keys
deleted — 0 or 1 for a single key. -/
def RedisState.delCmd (s : RedisState) (now : Int) (k : String) : Int × RedisState :=
  ((if (s.getLive now k).isSome then 1 else 0),
   ⟨s.entries.filter (fun e => ¬ (e.key == k)), s.log ++ [.del k]⟩)

/-- `SET k b NX PX px`: atomic set-if-not-present with expiry; replies
whether the caller took the key. -/
def RedisState.setnxCmd (s : RedisState) (now : Int) (k : String) (b : EncodedValue)
    (px : Int) : Bool × RedisState :=
  match s.getLive now k with
  | some _ => (false, ⟨s.entries, s.log ++ [.setnx k b px]⟩)
  | none => (true, ⟨⟨k, b, now + px⟩ :: s.entries.filter (fun e => ¬ (e.key == k)),
                    s.log ++ [.setnx k b px]⟩)

/-- Error vocabulary of the component (`InvalidStateException`,
`ConfigException` of the commons library, and errors surfaced by the
external client). -/
inductive ErrKind where
  | invalidState
  | config
  | transport
deriving DecidableEq

/-- An error value: kind, machine code and message. -/
structure Err where
  kind : ErrKind
  code : String
  message : String
deriving DecidableEq

/-- `new InvalidStateException(correlationId, 'NOT_OPENED', 'Connection is not opened')`. -/
def errNotOpened : Err := ⟨.invalidState, "NOT_OPENED", "Connection is not opened"⟩

/-- `new ConfigException(correlationId, 'NO_CONNECTION', 'Connection is not configured')`. -/
def errNoConnection : Err := ⟨.config, "NO_CONNECTION", "Connection is not configured"⟩

/-- The options bag handed to `redis.createClient` (the captured
`retry_strategy` closure is the component's `retryStrategy` method and is
kept implicit: it is a method of the component, not data). -/
structure RedisOptions where
  url : Option String
  host : Option String
  port : Option Int
  password : Option String
deriving DecidableEq

/-- A client handle returned by `redis.createClient(options)` — external;
modelled by the options it was created from. -/
structure RedisConnection where
  opts : RedisOptions
deriving DecidableEq

/-- Lifecycle side effects on client handles, traced so that statements
such as "without ever quitting the previous connection" are expressible. -/
inductive ClientEffect where
  | created (client : RedisConnection)
  | quit (client : RedisConnection)
deriving DecidableEq

/-- A resolved connection configuration (the `ConnectionResolver` and the
discovery mechanism that produce it are external collaborators; `open`
receives their result). -/
structure ConnectionParams where
  uri : Option String
  host : Option String
  port : Option Int
deriving DecidableEq

/-- A resolved credential (`CredentialResolver` result). -/
structure CredentialParams where
  password : Option String
deriving DecidableEq

/-- A configuration container restricted to what `configure` reads:
integer-valued options.  `getAsIntegerWithDefault` of the commons library
returns the stored integer when the key is present and convertible, and
the default otherwise; an entry `(k, none)` models a present but
non-convertible (ill-formed) value. -/
structure ConfigParams where
  intEntries : List (String × Option Int)

/-- `ConfigParams.getAsIntegerWithDefault(key, default)`. -/
def ConfigParams.getAsIntegerWithDefault (p : ConfigParams) (k : String) (d : Int) : Int :=
  match p.intEntries.find? (fun kv => kv.1 == k) with
  | some (_, some n) => n
  | some (_, none) => d
  | none => d

/-- The `RedisCache` component state: `_timeout` and `_retries` options
and the client handle (`null` when closed).  The two resolvers hold no
state relevant to the claims beyond their resolution results, which the
lifecycle operations receive explicitly. -/
structure RedisCache where
  _timeout : Int
  _retries : Int
  _client : Option RedisConnection

/-- `new RedisCache()`: field initializers `_timeout = 30000`,
`_retries = 3`, `_client = null`. -/
def RedisCache.mkNew : RedisCache := ⟨30000, 3, none⟩

/-- `configure(config)`: re-reads `options.timeout` and `options.retries`
with the current values as defaults (the connection/credential resolver
configuration is delegated to the external resolvers). -/
def RedisCache.configure (c : RedisCache) (config : ConfigParams) : RedisCache :=
  ⟨config.getAsIntegerWithDefault "options.timeout" c._timeout,
   config.getAsIntegerWithDefault "options.retries" c._retries,
   c._client⟩

/-- `isOpen()`: `this._client != null`. -/
def RedisCache.isOpen (c : RedisCache) : Bool := c._client.isSome

/-- The options construction inside `open`: a resolved URI is used
verbatim (`connection.getUri() != null`); otherwise JS-falsy host/port
fall back to `localhost` / `6379` (`getHost() || 'localhost'`,
`getPort() || 6379`); a resolved credential attaches its password. -/
def buildOptions (connection : ConnectionParams) (credential : Option CredentialParams) :
    RedisOptions :=
  let base : RedisOptions :=
    if connection.uri ≠ none then
      ⟨connection.uri, none, none, none⟩
    else
      ⟨none,
       some (match connection.host with
             | some h => if h = "" then "localhost" else h
             | none => "localhost"),
       some (match connection.port with
             | some p => if p = 0 then 6379 else p
             | none => 6379),
       none⟩
  match credential with
  | some cred => ⟨base.url, base.host, base.port, cred.password⟩
  | none => base

/-- `open(correlationId)` (named `openComponent`: `open` is reserved in
Lean).  It receives the resolution results of the external
connection/credential resolvers; a missing connection fails with
`NO_CONNECTION` before any client is created; otherwise
`redis.createClient(options)` is invoked and the handle stored — the
previous handle, if any, is simply overwritten, never quit.  Returns the
call result, the post-state and the client lifecycle effects. -/
def RedisCache.openComponent (c : RedisCache) (connection : Option ConnectionParams)
    (credential : Option CredentialParams) :
    Except Err Unit × RedisCache × List ClientEffect :=
  match connection with
  | none => (.error errNoConnection, c, [])
  | some conn =>
    let options := buildOptions conn credential
    let client : RedisConnection := ⟨options⟩
    (.ok (), ⟨c._timeout, c._retries, some client⟩, [.created client])

/-- `close(correlationId)`: no-op when no client exists; otherwise issues
`quit` (outcome of the external acknowledgement passed in as `quitErr`).
On a quit error the promise rejects, so the subsequent
`this._client = null` line is never reached and the handle is retained;
only a successful quit discards the handle. -/
def RedisCache.close (c : RedisCache) (quitErr : Option Err) :
    Except Err Unit × RedisCache × List ClientEffect :=
  match c._client with
  | none => (.ok (), c, [])
  | some conn =>
    match quitErr with
    | some e => (.error e, c, [.quit conn])
    | none => (.ok (), ⟨c._timeout, c._retries, none⟩, [.quit conn])

/-- The decision returned by the reconnect policy: a terminating
`Error(...)`, `undefined` (end reconnecting with the built-in error), or
a delay in milliseconds before the next attempt. -/
inductive RetryDecision where
  | err (message : String)
  | undef
  | delay (ms : Int)
deriving DecidableEq

/-- The argument object `node_redis` passes to `retry_strategy`:
`options.error` (modelled by its `code`, absent when the error is
JS-falsy), `options.total_retry_time` and `options.attempt`. -/
structure RetryOptions where
  errorCode : Option String
  total_retry_time : Int
  attempt : Int

/-- `retryStrategy(options)`, the reconnect policy closure handed to
`redis.createClient`. -/
def RedisCache.retryStrategy (c : RedisCache) (options : RetryOptions) : RetryDecision :=
  if options.errorCode = some "ECONNREFUSED" then
    .err "The server refused the connection"
  else if options.total_retry_time > c._timeout then
    .err "Retry time exhausted"
  else if options.attempt > c._retries then
    .undef
  else
    .delay (min (options.attempt * 100) 3000)

/-- `retrieve(correlationId, key)`: guard, then `GET`; the reply is
`null` for a missing/expired key (JS-falsy, resolved as is) and the
stored byte-encoded string otherwise (nonempty, hence truthy, hence
`JSON.parse`d).  Result and post-store-state. -/
def RedisCache.retrieve (c : RedisCache) (s : RedisState) (now : Int) (key : String) :
    Except Err JsValue × RedisState :=
  if c.isOpen then
    let (reply, s') := s.getCmd now key
    match reply with
    | none => (.ok .null, s')
    | some blob => (.ok (jsonParse blob), s')
  else (.error errNotOpened, s)

/-- `store(correlationId, key, value, timeout)`: guard, then
`SET key JSON.stringify(value) PX timeout`.  The callback parameter
`value` shadows the method argument, so the promise resolves the store's
reply — the simple string "OK" — not the stored value. -/
def RedisCache.store (c : RedisCache) (s : RedisState) (now : Int) (key : String)
    (value : JsValue) (timeout : Int) : Except Err JsValue × RedisState :=
  if c.isOpen then
    let (reply, s') := s.setCmd now key (jsonStringify value) timeout
    (.ok (.str reply), s')
  else (.error errNotOpened, s)

/-- `remove(correlationId, key)`: guard, then `DEL key`.  The reply is
the integer deletion count; `value ? JSON.parse(value) : value` on a
number resolves `0` as is (falsy) and otherwise `JSON.parse` of the
count's decimal string, i.e. the count itself. -/
def RedisCache.remove (c : RedisCache) (s : RedisState) (now : Int) (key : String) :
    Except Err JsValue × RedisState :=
  if c.isOpen then
    let (count, s') := s.delCmd now key
    if count ≠ 0 then (.ok (.num count), s')
    else (.ok (.num count), s')
  else (.error errNotOpened, s)

/-- Modelled from the spec: the `RedisLock` component.  Its source file
(`src/lock/RedisLock.ts`) is not under `src/`; only the declaration of
its test fixture is, so the component is modelled from the spec: it is
"composed with ConnectionManager identically to CacheComponent"
(a client handle, absent until opened) and owns a lease-holder token
used as the stored lock value ("key → lease holder token + expiration
instant"). -/
structure RedisLock where
  _client : Option RedisConnection
  _lock : String

/-- `RedisLock.isOpen`, per the spec's shared ConnectionManager pattern:
true iff a live connection handle exists. -/
def RedisLock.isOpen (l : RedisLock) : Bool := l._client.isSome

/-- Modelled from the spec: `RedisLock.tryAcquireLock(traceId, key,
timeoutMs)` — "attempts a single atomic set-if-not-present, with
expiry operation against the store.  Returns true iff the caller now
holds the lease; false if another holder currently holds it (no
waiting, no retry)"; like every operation it requires the component to
be open.  The holder token written under the key is the component's
`_lock` token (stored verbatim, modelled as an encoded string). -/
def RedisLock.tryAcquireLock (l : RedisLock) (s : RedisState) (now : Int) (key : String)
    (timeout : Int) : Except Err Bool × RedisState :=
  if l.isOpen then
    let (taken, s') := s.setnxCmd now key ⟨.str l._lock⟩ timeout
    (.ok taken, s')
  else (.error errNotOpened, s)

/-- The reconnect policy exactly as the specification words it, for
refinement comparison with the source's `retryStrategy`: on inputs
(failureReason, elapsedMs, attempt) return (a) a fixed terminating error
when the failure reason is connection-refused; otherwise (b) a fixed
terminating error when the elapsed retry time exceeds `options.timeout`;
otherwise (c) no further reconnection when the attempt count exceeds
`options.retries`; otherwise (d) the delay `min(attempt * 100, 3000)`
milliseconds — checked in exactly that order. -/
def retryPolicySpec (timeout retries : Int) (connectionRefused : Bool)
    (elapsedMs attempt : Int) : RetryDecision :=
  if connectionRefused then
    .err "The server refused the connection"
  else if elapsedMs > timeout then
    .err "Retry time exhausted"
  else if attempt > retries then
    .undef
  else
    .delay (min (attempt * 100) 3000)

/-- A sample client handle, for witness instantiations. -/
def sampleConn : RedisConnection := ⟨⟨none, some "localhost", some 6379, none⟩⟩

/-- A sample opened cache component, for witness instantiations. -/
def openCache : RedisCache := ⟨30000, 3, some sampleConn⟩

/-- The external store with no entries and an empty command trace. -/
def emptyStore : RedisState := ⟨[], []⟩

/-- A store holding the serialization of the string "ABC" under
`key1`, live until instant 1000. -/
def storedState : RedisState := ⟨[⟨"key1", jsonStringify (.str "ABC"), 1000⟩], []⟩

/-- A sample shutdown error reported by the external client's `quit`. -/
def sampleErr : Err := ⟨.transport, "QUIT_FAILED", "quit acknowledgement failed"⟩

/-- C1: Cache round-trip — on an open cache, `store(traceId, k, v, t)`
followed by `retrieve(traceId, k)` before `t` milliseconds have elapsed
returns a value equal to `v`, for every JSON-serializable value `v`
(including the empty/absent value `null`) and every key `k`. -/
theorem RedisCache.retrieve_after_store_roundtrip (c : RedisCache) (s : RedisState)
    (k : String) (v : JsValue) (t n0 n1 : Int) (hopen : c.isOpen = true)
    (_h0 : n0 ≤ n1) (h1 : n1 < n0 + t) :
    (c.retrieve (c.store s n0 k v t).2 n1 k).1 = .ok v := by
  simp [RedisCache.retrieve, RedisCache.store, RedisState.getCmd, RedisState.setCmd,
    RedisState.getLive, hopen, List.find?, h1, jsonParse, jsonStringify]

/-- C1 witness: concrete round-trip through an opened cache, both for a
plain string value and for the edge value `null`. -/
theorem RedisCache.retrieve_after_store_roundtrip_witness :
    openCache.isOpen = true ∧ (0 : Int) ≤ 500 ∧ (500 : Int) < 0 + 1000 ∧
    (openCache.retrieve (openCache.store emptyStore 0 "key1" (.str "ABC") 1000).2
        500 "key1").1 = .ok (.str "ABC") ∧
    (openCache.retrieve (openCache.store emptyStore 0 "key1" .null 1000).2
        500 "key1").1 = .ok .null :=
  ⟨rfl, by decide, by decide,
   RedisCache.retrieve_after_store_roundtrip openCache emptyStore "key1" (.str "ABC")
     1000 0 500 rfl (by decide) (by decide),
   RedisCache.retrieve_after_store_roundtrip openCache emptyStore "key1" .null
     1000 0 500 rfl (by decide) (by decide)⟩

/-- C2: the claim says `store` resolves with the stored value `v` itself;
evaluating the code on an open cache at `store(traceId, "key1", "ABC",
1000)` shows it resolves the store's SET acknowledgement — the simple
string "OK" — because the callback parameter `value` shadows the method
argument; "OK" is not the stored value "ABC". -/
theorem RedisCache.store_resolves_reply_not_value :
    (openCache.store emptyStore 0 "key1" (.str "ABC") 1000).1 = .ok (.str "OK") ∧
    JsValue.str "OK" ≠ JsValue.str "ABC" :=
  ⟨rfl, by simp⟩

/-- C3: on a component whose client handle is absent (not open),
`retrieve`, `store` and `remove` all fail with the `NOT_OPENED` invalid-
state error and leave the external store — entries and command trace —
untouched: no network call is issued. -/
theorem RedisCache.notOpened_guard (t r : Int) (s : RedisState) (now : Int)
    (k : String) (v : JsValue) (px : Int) :
    (RedisCache.mk t r none).isOpen = false ∧
    (RedisCache.mk t r none).retrieve s now k = (.error errNotOpened, s) ∧
    (RedisCache.mk t r none).store s now k v px = (.error errNotOpened, s) ∧
    (RedisCache.mk t r none).remove s now k = (.error errNotOpened, s) ∧
    errNotOpened.kind = .invalidState ∧ errNotOpened.code = "NOT_OPENED" :=
  ⟨rfl, rfl, rfl, rfl, rfl, rfl⟩

/-- C4 counterexample: the claim says that when `quit` reports an error
during `close` on an open component, the error is propagated AND the
handle is nevertheless discarded, leaving `isOpen() == false`.  On the
concrete open component `openCache` with a failing quit, the error is
indeed propagated but the component is NOT left closed: the rejected
promise makes `close` throw before the `this._client = null` line, so
`isOpen()` is still true afterwards. -/
theorem RedisCache.close_quit_error_counterexample :
    (openCache.close (some sampleErr)).1 = .error sampleErr ∧
    ¬ ((openCache.close (some sampleErr)).2.1.isOpen = false) :=
  ⟨rfl, by decide⟩

/-- C4 amended: `close` on a component holding a client handle issues
`quit`; if `quit` reports an error, that error is propagated to the
caller and the handle is retained — the component remains open; only a
successful `quit` discards the handle, leaving the component closed.
When no connection exists, `close` is a no-op (no effect issued). -/
theorem RedisCache.close_behavior (t r : Int) (conn : RedisConnection) (e : Err)
    (qe : Option Err) :
    (RedisCache.mk t r (some conn)).close (some e) =
      (.error e, ⟨t, r, some conn⟩, [.quit conn]) ∧
    ((RedisCache.mk t r (some conn)).close (some e)).2.1.isOpen = true ∧
    (RedisCache.mk t r (some conn)).close none =
      (.ok (), ⟨t, r, none⟩, [.quit conn]) ∧
    ((RedisCache.mk t r (some conn)).close none).2.1.isOpen = false ∧
    (RedisCache.mk t r none).close qe = (.ok (), ⟨t, r, none⟩, []) :=
  ⟨rfl, rfl, rfl, rfl, rfl⟩

/-- C5: `isOpen()` reports true exactly when a live connection handle
exists (the `Open` state).  A fresh component is closed; while an
open-cycle is still resolving configuration (the transient `Opening`
phase, before `redis.createClient` assigns the handle) the component is
unchanged — witnessed by the failing-resolution path of `open`, whose
post-state is the untouched component — so `isOpen()` does not report
true in `Opening` when starting from `Closed`. -/
theorem RedisCache.isOpen_only_when_handle_exists (t r : Int) (conn : RedisConnection)
    (cred : Option CredentialParams) :
    (∀ c : RedisCache, c.isOpen = c._client.isSome) ∧
    RedisCache.mkNew.isOpen = false ∧
    ((RedisCache.mk t r none).openComponent none cred).2.1 = RedisCache.mk t r none ∧
    ((RedisCache.mk t r none).openComponent none cred).2.1.isOpen = false ∧
    (RedisCache.mk t r (some conn)).isOpen = true :=
  ⟨fun _ => rfl, rfl, rfl, rfl, rfl⟩

/-- C6: the source's `retryStrategy` refines the specification's
reconnect policy: terminating error on connection-refused, else
terminating error when elapsed retry time exceeds `options.timeout`,
else no further reconnection when the attempt count exceeds
`options.retries`, else the delay `min(attempt * 100, 3000)` — in
exactly that order (the code's connection-refused test is
`options.error && options.error.code === 'ECONNREFUSED'`). -/
theorem RedisCache.retryStrategy_refines_spec (c : RedisCache) (options : RetryOptions) :
    c.retryStrategy options =
      retryPolicySpec c._timeout c._retries
        (options.errorCode == some "ECONNREFUSED")
        options.total_retry_time options.attempt := by
  by_cases h : options.errorCode = some "ECONNREFUSED" <;>
    simp [RedisCache.retryStrategy, retryPolicySpec, h]

/-- C7: the claim says `remove` resolves with the prior stored value
when one exists and with an absent/null result otherwise; evaluating the
code shows it resolves `JSON.parse` of DEL's integer reply — the
deletion count `1` when the key was present (not the prior value "ABC")
and the number `0` (not an absent/null result) when it was not. -/
theorem RedisCache.remove_resolves_deletion_count :
    (openCache.remove storedState 0 "key1").1 = .ok (.num 1) ∧
    (openCache.remove emptyStore 0 "key1").1 = .ok (.num 0) ∧
    JsValue.num 1 ≠ JsValue.str "ABC" ∧ JsValue.num 0 ≠ JsValue.null :=
  ⟨rfl, rfl, by simp, by simp⟩

/-- C8: the claim says the never-configured defaults are
`options.timeout = 60000` ms and `options.retries = 3`; evaluating the
code shows the field initializer sets `_timeout` to 30000 ms (the
`_retries = 3` default and the configure-override behaviour do hold:
an absent or ill-formed parameter leaves the current value). -/
theorem RedisCache.default_options_eval :
    RedisCache.mkNew._timeout = 30000 ∧
    RedisCache.mkNew._timeout ≠ 60000 ∧
    RedisCache.mkNew._retries = 3 ∧
    (RedisCache.mkNew.configure ⟨[("options.timeout", some 10000)]⟩)._timeout = 10000 ∧
    (RedisCache.mkNew.configure ⟨[("options.timeout", none)]⟩)._timeout = 30000 ∧
    (RedisCache.mkNew.configure ⟨[]⟩)._timeout = 30000 ∧
    (RedisCache.mkNew.configure ⟨[]⟩)._retries = 3 :=
  ⟨rfl, by decide, rfl, rfl, rfl, rfl, rfl⟩

/-- C9: mutual exclusion of `tryAcquireLock` (spec-modelled: the lock
component's source is not under `src/`).  The operation is a single
atomic set-if-not-present-with-expiry, so any race of two concurrent
calls is equivalent to one of the two sequential interleavings; the two
callers are arbitrary here, so the one statement covers both orders: on
a free lock key, the call that executes first returns true (it now holds
the lease) and the other returns false — exactly one succeeds. -/
theorem RedisLock.tryAcquireLock_mutual_exclusion (connA connB : RedisConnection)
    (tokA tokB : String) (s : RedisState) (now : Int) (k : String) (t t' : Int)
    (hfree : s.getLive now k = none) (ht : 0 < t) :
    ((⟨some connA, tokA⟩ : RedisLock).tryAcquireLock s now k t).1 = .ok true ∧
    ((⟨some connB, tokB⟩ : RedisLock).tryAcquireLock
        ((⟨some connA, tokA⟩ : RedisLock).tryAcquireLock s now k t).2 now k t').1 =
      .ok false := by
  have hlt : now < now + t := by omega
  constructor
  · unfold RedisLock.tryAcquireLock RedisState.setnxCmd
    rw [hfree]
    simp [RedisLock.isOpen]
  · unfold RedisLock.tryAcquireLock RedisState.setnxCmd
    rw [hfree]
    simp [RedisLock.isOpen, RedisState.getLive, List.find?, hlt]

/-- C9 witness: two concrete opened lock components racing on the free
key `lock1`; the first caller acquires, the second does not. -/
theorem RedisLock.tryAcquireLock_mutual_exclusion_witness :
    emptyStore.getLive 0 "lock1" = none ∧ (0 : Int) < 1000 ∧
    ((⟨some sampleConn, "tokA"⟩ : RedisLock).tryAcquireLock emptyStore 0 "lock1" 1000).1 =
      .ok true ∧
    ((⟨some sampleConn, "tokB"⟩ : RedisLock).tryAcquireLock
        ((⟨some sampleConn, "tokA"⟩ : RedisLock).tryAcquireLock emptyStore 0 "lock1"
          1000).2 0 "lock1" 1000).1 = .ok false :=
  ⟨rfl, by decide,
   (RedisLock.tryAcquireLock_mutual_exclusion sampleConn sampleConn "tokA" "tokB"
     emptyStore 0 "lock1" 1000 1000 rfl (by decide)).1,
   (RedisLock.tryAcquireLock_mutual_exclusion sampleConn sampleConn "tokA" "tokB"
     emptyStore 0 "lock1" 1000 1000 rfl (by decide)).2⟩

/-- C10: calling `open` on a component that is already open (handle
present) neither fails nor no-ops: it succeeds, overwrites the handle
with a client freshly created from the re-resolved configuration, and
the only client lifecycle effect is the creation of the new client — the
previous connection is never quit. -/
theorem RedisCache.open_on_open_overwrites_handle (t r : Int) (conn0 : RedisConnection)
    (connection : ConnectionParams) (credential : Option CredentialParams) :
    (RedisCache.mk t r (some conn0)).isOpen = true ∧
    (RedisCache.mk t r (some conn0)).openComponent (some connection) credential =
      (.ok (), ⟨t, r, some ⟨buildOptions connection credential⟩⟩,
       [.created ⟨buildOptions connection credential⟩]) ∧
    ((RedisCache.mk t r (some conn0)).openComponent (some connection) credential).2.1.isOpen
      = true ∧
    ClientEffect.quit conn0 ∉
      ((RedisCache.mk t r (some conn0)).openComponent (some connection) credential).2.2 := by
  refine ⟨rfl, rfl, rfl, ?_⟩
  simp [RedisCache.openComponent]
